import Mathlib

/-!
# jstest-gtk: `src/main.cpp`

A shallow embedding of the `Main` class of jstest-gtk (the application glue
in `src/main.cpp`) and of the axis normalisation that the specification
describes for the calibration engine.

* Heap objects (`Gtk::Dialog*`, `Joystick*`) are addresses (`Ptr`); `new`
  takes the next free address from the state.
* Everything that leaves the process (toolkit calls, system calls, object
  construction and destruction) is appended to `State.effects` in program
  order; `std::cout` is `State.out`.
* What the program reads from its surroundings is the `Env` record.
* C strings are `String`s; `argv[i][0]` of an empty argument is the
  terminating NUL.
-/

namespace JstestGtk

/-- Address of a heap object; the null pointer is `none` in `Option Ptr`. -/
abbrev Ptr := Nat

/-- Value of the macro `EXIT_FAILURE` of `<stdlib.h>` (1 on POSIX systems). -/
def EXIT_FAILURE : Int := 1

/-- Observable actions of `Main`, in the order the program performs them. -/
inductive Effect where
  | call_show_device_list_dialog
  | call_show_device_property_dialog (filename : String)
  | call_show_calibration_dialog (joystick : Ptr)
  | call_show_mapping_dialog (joystick : Ptr)
  | new_Joystick (p : Ptr) (filename : String)
  | new_JoystickListWidget (p : Ptr)
  | new_JoystickTestWidget (p : Ptr) (joystick : Ptr) (simple_ui : Bool)
  | new_JoystickCalibrationWidget (p : Ptr) (joystick : Ptr)
  | new_JoystickMapWidget (p : Ptr) (joystick : Ptr)
  | connect_hide (dialog : Ptr)
  | show (dialog : Ptr)
  | show_all (dialog : Ptr)
  | delete (dialog : Ptr)
  | quit
  | set_application_name (name : String)
  | set_prgname (name : String)
  | access (path : String)
  | mkdir (path : String)
  | gtk_main_kit
  | gtk_main_run
  deriving DecidableEq

/-- What `Main` reads from its surroundings.

Modelled from the spec: the constructor `Joystick(filename)` is not part of
`src/main.cpp`; section 4.1 gives opening a device path as
`open(path) -> DeviceHandle | fails with DeviceUnavailable`, so
`joystick_open filename` is `none` when the device opens and `some what`
when construction throws a `std::exception` with message `what` (the
exception `Main::main` catches). -/
structure Env where
  /-- Result of `Glib::get_user_config_dir()`. -/
  user_config_dir : String
  /-- The function `Glib::build_filename`. -/
  build_filename : String → String → String
  /-- Whether `access(path, R_OK | W_OK) == 0`. -/
  access_ok : String → Bool
  /-- Whether `mkdir(path, 0770) == 0`. -/
  mkdir_ok : String → Bool
  /-- The text `strerror(errno)` after a failed `mkdir`. -/
  strerror_errno : String
  /-- Outcome of `new Joystick(filename)`. -/
  joystick_open : String → Option String

/-- The members of `Main` together with the process state around it. -/
structure State where
  datadir : String
  cfg_directory : String
  m_simple_ui : Bool
  list_dialog : Option Ptr
  dialogs : List Ptr
  joysticks : List Ptr
  /-- Next address handed out by `new`. -/
  next : Ptr
  /-- Everything written to `std::cout`. -/
  out : String
  effects : List Effect
  deriving DecidableEq

/-- State after the constructor `Main::Main(datadir_)` -/
def Main (datadir_ : String) : State :=
  { datadir := datadir_, cfg_directory := "", m_simple_ui := false,
    list_dialog := none, dialogs := [], joysticks := [],
    next := 1, out := "", effects := [] }

/-- Method `Main::show_device_list_dialog`. -/
def show_device_list_dialog (s : State) : State :=
  let s := { s with effects := s.effects ++ [Effect.call_show_device_list_dialog] }
  match s.list_dialog with
  | some p => { s with effects := s.effects ++ [Effect.show p] }
  | none =>
    let p := s.next
    { s with
      next := s.next + 1
      list_dialog := some p
      dialogs := s.dialogs ++ [p]
      effects := s.effects ++
        [Effect.new_JoystickListWidget p, Effect.connect_hide p, Effect.show_all p] }

/-- Method `Main::show_device_property_dialog`; the first component is the
exception that leaves the call, if any. -/
def show_device_property_dialog (env : Env) (filename : String) (s : State) :
    Option String × State :=
  let s := { s with effects := s.effects ++ [Effect.call_show_device_property_dialog filename] }
  match env.joystick_open filename with
  | some what => (some what, s)
  | none =>
    let joystick := s.next
    let dialog := s.next + 1
    (none,
     { s with
       next := s.next + 2
       effects := s.effects ++
         [Effect.new_Joystick joystick filename,
          Effect.new_JoystickTestWidget dialog joystick s.m_simple_ui,
          Effect.connect_hide dialog, Effect.show_all dialog]
       joysticks := s.joysticks ++ [joystick]
       dialogs := s.dialogs ++ [dialog] })

/-- Method `Main::show_calibration_dialog`. -/
def show_calibration_dialog (joystick : Ptr) (s : State) : State :=
  let dialog := s.next
  { s with
    next := s.next + 1
    effects := s.effects ++
      [Effect.call_show_calibration_dialog joystick,
       Effect.new_JoystickCalibrationWidget dialog joystick,
       Effect.connect_hide dialog, Effect.show_all dialog]
    dialogs := s.dialogs ++ [dialog] }

/-- Method `Main::show_mapping_dialog`. -/
def show_mapping_dialog (joystick : Ptr) (s : State) : State :=
  let dialog := s.next
  { s with
    next := s.next + 1
    effects := s.effects ++
      [Effect.call_show_mapping_dialog joystick,
       Effect.new_JoystickMapWidget dialog joystick,
       Effect.connect_hide dialog, Effect.show_all dialog]
    dialogs := s.dialogs ++ [dialog] }

/-- Algorithm `std::remove(first, last, value)` on a whole vector: the entries that
differ from `value` are moved to the front in their order, the rest of the
buffer keeps its stale entries, and the result is the buffer with the index
of the new logical end. -/
def std_remove (l : List Ptr) (value : Ptr) : List Ptr × Nat :=
  let kept := l.filter (fun x => x != value)
  (kept ++ l.drop kept.length, kept.length)

/-- Call `v.erase(first, v.end())`: drop everything from index `first` on. -/
def erase_to_end (buf : List Ptr) (first : Nat) : List Ptr :=
  buf.take first

/-- Method `Main::on_dialog_hide`. -/
def on_dialog_hide (dialog : Ptr) (s : State) : State :=
  let r := std_remove s.dialogs dialog
  let s := { s with dialogs := erase_to_end r.1 r.2 }
  let s := { s with effects := s.effects ++ [Effect.delete dialog] }
  if s.dialogs.isEmpty then
    { s with effects := s.effects ++ [Effect.quit] }
  else
    s

/-- The character `argv[i][0]`: the first character of the argument, the
terminating NUL for an empty one. -/
def firstChar (arg : String) : Char :=
  match arg.data with
  | [] => Char.ofNat 0
  | c :: _ => c

/-- The help text written for `--help` and `-h`. -/
def usage (argv0 : String) : String :=
  "Usage: " ++ argv0 ++ " [OPTIONS]... [DEVICE]...\n"
    ++ "A graphical joystick tester.\n"
    ++ "\n"
    ++ "Options:\n"
    ++ "  -h, --help      Display this help and exit\n"
    ++ "  -v, --version   Display version information and exit\n"
    ++ "  --simple        Hide graphical representation of axis\n"
    ++ "\n"
    ++ "Report bugs to Ingo Ruhnke <grumbel@gmx.de>.\n"

/-- The argument loop of `Main::main` (`for(int i = 1; i < argc; ++i)`), run
over the arguments not yet read. The first component is `some code` when the
loop leaves `main` with `return code`; the last is `device_files`. -/
def main_loop (argv0 : String) :
    List String → State → List String → Option Int × State × List String
  | [], s, device_files => (none, s, device_files)
  | arg :: rest, s, device_files =>
    if arg = "--help" ∨ arg = "-h" then
      (some 0, { s with out := s.out ++ usage argv0 }, device_files)
    else if arg = "--version" ∨ arg = "-v" then
      (some 0, { s with out := s.out ++ "jstest-gtk 0.1.0" ++ "\n" }, device_files)
    else if arg = "--simple" then
      main_loop argv0 rest { s with m_simple_ui := true } device_files
    else if firstChar arg = '-' then
      (some EXIT_FAILURE,
       { s with out := s.out ++ "Error: " ++ argv0 ++ ": unrecognized option '" ++ arg ++ "'" ++ "\n" },
       device_files)
    else
      main_loop argv0 rest s (device_files ++ [arg])

/-- The loop `for(i = device_files.begin(); i != device_files.end(); ++i)
show_device_property_dialog(*i);`, left at the first exception. -/
def show_device_files (env : Env) : List String → State → Option String × State
  | [], s => (none, s)
  | f :: rest, s =>
    match show_device_property_dialog env f s with
    | (some what, s) => (some what, s)
    | (none, s) => show_device_files env rest s

/-- The `try` block of `Main::main`; the first component is the exception
that reaches the `catch` clauses, if any. The state is the one in which
`Gtk::Main::run()` is entered: the callbacks the event loop runs are the
separate operations above. -/
def main_try (env : Env) (device_files : List String) (s : State) : Option String × State :=
  let s := { s with effects := s.effects ++
    [Effect.set_application_name "Joystick Test", Effect.set_prgname "jstest-gtk"] }
  let s := { s with cfg_directory := env.build_filename env.user_config_dir "jstest-gtk" }
  let s := { s with effects := s.effects ++ [Effect.access s.cfg_directory] }
  let accessFailed := !env.access_ok s.cfg_directory
  let s := if accessFailed then
      { s with effects := s.effects ++ [Effect.mkdir s.cfg_directory] }
    else s
  if accessFailed && !env.mkdir_ok s.cfg_directory then
    (some (s.cfg_directory ++ ": " ++ env.strerror_errno), s)
  else
    let s := { s with effects := s.effects ++ [Effect.gtk_main_kit] }
    let r :=
      if device_files.isEmpty then
        ((none : Option String), show_device_list_dialog s)
      else
        show_device_files env device_files s
    match r with
    | (some what, s) => (some what, s)
    | (none, s) => (none, { s with effects := s.effects ++ [Effect.gtk_main_run] })

/-- Method `Main::main(argc, argv)`, with `argv` the list of its `argc` strings:
the return value and the state it leaves. -/
def main (env : Env) (argv : List String) (s : State) : Int × State :=
  let argv0 := argv.headD ""
  match main_loop argv0 (argv.drop 1) s [] with
  | (some code, s, _) => (code, s)
  | (none, s, device_files) =>
    match main_try env device_files s with
    | (some what, s) => (EXIT_FAILURE, { s with out := s.out ++ "Error: " ++ what ++ "\n" })
    | (none, s) => (0, s)

/-- The files `show_device_property_dialog` was called with, in order. -/
def property_calls : List Effect → List String
  | [] => []
  | Effect.call_show_device_property_dialog f :: es => f :: property_calls es
  | _ :: es => property_calls es

/-- How often `show_device_list_dialog` was called. -/
def list_calls : List Effect → Nat
  | [] => 0
  | Effect.call_show_device_list_dialog :: es => list_calls es + 1
  | _ :: es => list_calls es

/-- An environment in which every device opens and the config directory is
accessible. -/
def envOk : Env :=
  { user_config_dir := "/home/user/.config"
    build_filename := fun a b => a ++ "/" ++ b
    access_ok := fun _ => true
    mkdir_ok := fun _ => true
    strerror_errno := "Permission denied"
    joystick_open := fun _ => none }

/-- An environment in which the device `/dev/input/js9` does not exist. -/
def envMissing : Env :=
  { envOk with
    joystick_open := fun f =>
      if f = "/dev/input/js9" then some "/dev/input/js9: No such file or directory" else none }

/-- Arguments the loop reads without leaving `main`: `--simple`, and those
whose first character is not `-` (the device files). -/
def passes (arg : String) : Prop :=
  arg = "--simple" ∨ firstChar arg ≠ '-'

/-- The arguments that do not start with `-`, in their order. -/
def device_args (args : List String) : List String :=
  args.filter (fun a => firstChar a != '-')

/-- The effects performed between state `s` and the later state `r`. -/
def emitted (s r : State) : List Effect :=
  r.effects.drop s.effects.length

/-- The check `access(cfg_directory, R_OK | W_OK) == 0 || mkdir(cfg_directory,
0770) == 0` that keeps `Main::main` from throwing. -/
def cfg_directory_ok (env : Env) : Bool :=
  env.access_ok (env.build_filename env.user_config_dir "jstest-gtk") ||
    env.mkdir_ok (env.build_filename env.user_config_dir "jstest-gtk")

/-- The device files up to and including the first one that fails to open
(all of them when each one opens). -/
def attempted (env : Env) : List String → List String
  | [] => []
  | f :: rest =>
    match env.joystick_open f with
    | some _ => [f]
    | none => f :: attempted env rest

/-- The effects of the `try` block before the dialogs are shown. -/
def try_prologue (env : Env) : List Effect :=
  [Effect.set_application_name "Joystick Test", Effect.set_prgname "jstest-gtk",
   Effect.access (env.build_filename env.user_config_dir "jstest-gtk")] ++
  (if env.access_ok (env.build_filename env.user_config_dir "jstest-gtk") then []
   else [Effect.mkdir (env.build_filename env.user_config_dir "jstest-gtk")]) ++
  [Effect.gtk_main_kit]

/-! ## Calibration (specification section 4.4) -/

/-- Calibration record of one logical axis (specification section 3). -/
structure CalibrationRecord where
  min : Int
  center : Int
  max : Int
  deadzone : Nat
  inverted : Bool
  deriving DecidableEq

/-- Clamp to the interval from -1 to 1. -/
def clamp_unit (x : ℚ) : ℚ :=
  if x < -1 then -1 else if 1 < x then 1 else x

/-- Modelled from the spec: `normalize` of the calibration engine is not in
`src/main.cpp`; this follows the five steps of section 4.4 on the record of
the axis, with exact rationals for the normalised value. -/
def normalize (r : CalibrationRecord) (raw_value : Int) : ℚ :=
  if r.min = r.max then 0
  else
    let delta := raw_value - r.center
    if delta.natAbs ≤ r.deadzone then 0
    else
      let scaled : ℚ :=
        if 0 < delta then (delta : ℚ) / ((r.max - r.center : Int) : ℚ)
        else (delta : ℚ) / ((r.center - r.min : Int) : ℚ)
      let clamped := clamp_unit scaled
      if r.inverted then -clamped else clamped

/-! ## The argument loop -/

theorem passes_not_help {arg : String} (h : passes arg) :
    ¬ (arg = "--help" ∨ arg = "-h") := by
  rintro (rfl | rfl) <;> rcases h with h | h <;> revert h <;> decide

theorem passes_not_version {arg : String} (h : passes arg) :
    ¬ (arg = "--version" ∨ arg = "-v") := by
  rintro (rfl | rfl) <;> rcases h with h | h <;> revert h <;> decide

theorem main_loop_passes (argv0 : String) (pre rest : List String)
    (hpre : ∀ x ∈ pre, passes x) (s : State) (dev : List String) :
    main_loop argv0 (pre ++ rest) s dev =
      main_loop argv0 rest
        { s with m_simple_ui := s.m_simple_ui || decide ("--simple" ∈ pre) }
        (dev ++ device_args pre) := by
  induction pre generalizing s dev with
  | nil => simp [device_args]
  | cons x pre ih =>
    have hx : passes x := hpre x (List.mem_cons_self _ _)
    have hrest : ∀ y ∈ pre, passes y := fun y hy => hpre y (List.mem_cons_of_mem _ hy)
    by_cases hs : x = "--simple"
    · subst hs
      have hd : device_args ("--simple" :: pre) = device_args pre := by
        simp [device_args, List.filter_cons, show firstChar "--simple" = '-' by decide]
      rw [List.cons_append, main_loop, if_neg (passes_not_help hx),
        if_neg (passes_not_version hx), if_pos rfl, ih hrest, hd]
      simp
    · have hc : firstChar x ≠ '-' := by
        rcases hx with h | h
        · exact absurd h hs
        · exact h
      have hd : device_args (x :: pre) = x :: device_args pre := by
        simp [device_args, List.filter_cons, hc]
      rw [List.cons_append, main_loop, if_neg (passes_not_help hx),
        if_neg (passes_not_version hx), if_neg hs, if_neg hc, ih hrest, hd]
      have hne : ¬ "--simple" = x := fun h => hs h.symm
      simp [hne]

theorem main_of_loop_exit (env : Env) (argv0 : String) (args : List String) (s s' : State)
    (code : Int) (dev : List String)
    (h : main_loop argv0 args s [] = (some code, s', dev)) :
    main env (argv0 :: args) s = (code, s') := by
  simp [main, h]

/-- C1: when the first argument that is neither `--simple` nor a device file
(the arguments `pre` before it all are) is `-h`, `--help`, `-v` or
`--version`, `Main::main` returns 0, leaves `dialogs`, `joysticks`,
`list_dialog`, the allocator, the config directory and the effect trace as
they were (no dialog, no Joystick, no `access` or `mkdir`), gives the same
result whatever the later arguments are, and writes exactly
`jstest-gtk 0.1.0` and a newline for the version options, the usage text
starting `Usage: <argv[0]> [OPTIONS]... [DEVICE]...` for the help options. -/
theorem main_informational_option (env : Env) (argv0 : String) (pre post : List String)
    (arg : String) (s : State)
    (hpre : ∀ x ∈ pre, x = "--simple" ∨ firstChar x ≠ '-')
    (harg : arg ∈ ["-h", "--help", "-v", "--version"]) :
    (main env (argv0 :: (pre ++ arg :: post)) s).1 = 0 ∧
    (main env (argv0 :: (pre ++ arg :: post)) s).2.dialogs = s.dialogs ∧
    (main env (argv0 :: (pre ++ arg :: post)) s).2.joysticks = s.joysticks ∧
    (main env (argv0 :: (pre ++ arg :: post)) s).2.list_dialog = s.list_dialog ∧
    (main env (argv0 :: (pre ++ arg :: post)) s).2.next = s.next ∧
    (main env (argv0 :: (pre ++ arg :: post)) s).2.effects = s.effects ∧
    (main env (argv0 :: (pre ++ arg :: post)) s).2.cfg_directory = s.cfg_directory ∧
    (∀ (env' : Env) (post' : List String),
      main env' (argv0 :: (pre ++ arg :: post')) s = main env (argv0 :: (pre ++ arg :: post)) s) ∧
    ((arg = "-v" ∨ arg = "--version") →
      (main env (argv0 :: (pre ++ arg :: post)) s).2.out = s.out ++ "jstest-gtk 0.1.0\n") ∧
    ((arg = "-h" ∨ arg = "--help") →
      (main env (argv0 :: (pre ++ arg :: post)) s).2.out =
        s.out ++ ("Usage: " ++ argv0 ++ " [OPTIONS]... [DEVICE]...\n"
          ++ "A graphical joystick tester.\n\nOptions:\n"
          ++ "  -h, --help      Display this help and exit\n"
          ++ "  -v, --version   Display version information and exit\n"
          ++ "  --simple        Hide graphical representation of axis\n\n"
          ++ "Report bugs to Ingo Ruhnke <grumbel@gmx.de>.\n")) := by
  have hloop : ∀ rest : List String, ∃ s' dev,
      main_loop argv0 (pre ++ arg :: rest) s [] = (some 0, s', dev) ∧
      s'.dialogs = s.dialogs ∧ s'.joysticks = s.joysticks ∧ s'.list_dialog = s.list_dialog ∧
      s'.next = s.next ∧ s'.effects = s.effects ∧ s'.cfg_directory = s.cfg_directory ∧
      s' = { s with
        m_simple_ui := s.m_simple_ui || decide ("--simple" ∈ pre)
        out := if arg = "--help" ∨ arg = "-h" then s.out ++ usage argv0
          else s.out ++ "jstest-gtk 0.1.0" ++ "\n" } := by
    intro rest
    refine ⟨{ s with
        m_simple_ui := s.m_simple_ui || decide ("--simple" ∈ pre)
        out := if arg = "--help" ∨ arg = "-h" then s.out ++ usage argv0
          else s.out ++ "jstest-gtk 0.1.0" ++ "\n" }, [] ++ device_args pre,
      ?_, rfl, rfl, rfl, rfl, rfl, rfl, rfl⟩
    rw [main_loop_passes argv0 pre (arg :: rest) hpre]
    by_cases hh : arg = "--help" ∨ arg = "-h"
    · rw [main_loop, if_pos hh, if_pos hh]
    · have hv : arg = "--version" ∨ arg = "-v" := by
        simp only [List.mem_cons, List.mem_singleton, List.not_mem_nil, or_false] at harg
        tauto
      rw [main_loop, if_neg hh, if_pos hv, if_neg hh]
  obtain ⟨s', dev, hs', h1, h2, h3, h4, h5, h6, hout⟩ := hloop post
  have hmain := main_of_loop_exit env argv0 _ s s' 0 dev hs'
  rw [hmain]
  refine ⟨rfl, h1, h2, h3, h4, h5, h6, ?_, ?_, ?_⟩
  · intro env' post'
    obtain ⟨t, dev', ht, -, -, -, -, -, -, htout⟩ := hloop post'
    rw [main_of_loop_exit env' argv0 _ s t 0 dev' ht, htout, hout]
  · intro hv
    have hh : ¬ (arg = "--help" ∨ arg = "-h") := by
      rcases hv with rfl | rfl <;> decide
    rw [hout]
    simp only [if_neg hh, String.append_assoc]
    rfl
  · intro hh
    have hh' : arg = "--help" ∨ arg = "-h" := hh.symm
    rw [hout]
    simp only [if_pos hh', usage, String.append_assoc]
    rfl

/-- Instance of C1: `--simple js0 -v --bogus`. -/
theorem main_informational_option_witness :
    (main envOk ["jstest-gtk", "--simple", "/dev/input/js0", "-v", "--bogus"] (Main "/usr/share/")).1 = 0 ∧
    (main envOk ["jstest-gtk", "--simple", "/dev/input/js0", "-v", "--bogus"] (Main "/usr/share/")).2.out
      = "jstest-gtk 0.1.0\n" :=
  have h := main_informational_option envOk "jstest-gtk" ["--simple", "/dev/input/js0"] ["--bogus"]
    "-v" (Main "/usr/share/") (by decide) (by decide)
  ⟨h.1, by simpa [Main] using h.2.2.2.2.2.2.2.2.1 (Or.inl rfl)⟩

/-- C2: when the first argument that is neither `--simple` nor a device file
starts with `-` and is none of `-h`, `--help`, `-v`, `--version`,
`Main::main` writes `Error: <argv[0]>: unrecognized option '<arg>'` and a
newline, returns `EXIT_FAILURE`, and leaves `dialogs`, `joysticks`,
`list_dialog`, the allocator and the effect trace as they were, whatever the
later arguments are. -/
theorem main_unrecognized_option (env : Env) (argv0 : String) (pre post : List String)
    (arg : String) (s : State)
    (hpre : ∀ x ∈ pre, x = "--simple" ∨ firstChar x ≠ '-')
    (hsimple : arg ≠ "--simple")
    (hdash : firstChar arg = '-')
    (harg : arg ∉ ["-h", "--help", "-v", "--version"]) :
    (main env (argv0 :: (pre ++ arg :: post)) s).1 = EXIT_FAILURE ∧
    (main env (argv0 :: (pre ++ arg :: post)) s).2.out =
      s.out ++ ("Error: " ++ argv0 ++ ": unrecognized option '" ++ arg ++ "'\n") ∧
    (main env (argv0 :: (pre ++ arg :: post)) s).2.dialogs = s.dialogs ∧
    (main env (argv0 :: (pre ++ arg :: post)) s).2.joysticks = s.joysticks ∧
    (main env (argv0 :: (pre ++ arg :: post)) s).2.list_dialog = s.list_dialog ∧
    (main env (argv0 :: (pre ++ arg :: post)) s).2.next = s.next ∧
    (main env (argv0 :: (pre ++ arg :: post)) s).2.effects = s.effects := by
  simp only [List.mem_cons, List.mem_singleton, List.not_mem_nil, or_false, not_or] at harg
  obtain ⟨h1, h2, h3, h4⟩ := harg
  have hh : ¬ (arg = "--help" ∨ arg = "-h") := by tauto
  have hv : ¬ (arg = "--version" ∨ arg = "-v") := by tauto
  have hloop : main_loop argv0 (pre ++ arg :: post) s [] =
      (some EXIT_FAILURE,
       { s with
         m_simple_ui := s.m_simple_ui || decide ("--simple" ∈ pre)
         out := s.out ++ "Error: " ++ argv0 ++ ": unrecognized option '" ++ arg ++ "'" ++ "\n" },
       [] ++ device_args pre) := by
    rw [main_loop_passes argv0 pre (arg :: post) hpre, main_loop, if_neg hh, if_neg hv,
      if_neg hsimple, if_pos hdash]
  rw [main_of_loop_exit env argv0 _ s _ EXIT_FAILURE _ hloop]
  refine ⟨rfl, ?_, rfl, rfl, rfl, rfl, rfl⟩
  simp only [String.append_assoc]
  rfl

/-- Instance of C2: `--simplex` is rejected although `--help` and a device
follow. -/
theorem main_unrecognized_option_witness :
    (main envOk ["jstest-gtk", "--simple", "--simplex", "--help", "/dev/input/js0"]
        (Main "/usr/share/")).1 = EXIT_FAILURE ∧
    (main envOk ["jstest-gtk", "--simple", "--simplex", "--help", "/dev/input/js0"]
        (Main "/usr/share/")).2.out = "Error: jstest-gtk: unrecognized option '--simplex'\n" ∧
    (main envOk ["jstest-gtk", "--simple", "--simplex", "--help", "/dev/input/js0"]
        (Main "/usr/share/")).2.dialogs = [] :=
  have h := main_unrecognized_option envOk "jstest-gtk" ["--simple"] ["--help", "/dev/input/js0"]
    "--simplex" (Main "/usr/share/") (by decide) (by decide) (by decide) (by decide)
  ⟨h.1, by simpa [Main] using h.2.1, h.2.2.1⟩

/-! ## Which dialogs `main` shows -/

theorem property_calls_append (a b : List Effect) :
    property_calls (a ++ b) = property_calls a ++ property_calls b := by
  induction a with
  | nil => rfl
  | cons e a ih => cases e <;> simp [property_calls, ih]

theorem list_calls_append (a b : List Effect) :
    list_calls (a ++ b) = list_calls a + list_calls b := by
  induction a with
  | nil => simp [list_calls]
  | cons e a ih => cases e <;> simp +arith [list_calls, ih]

theorem attempted_of_all_open (env : Env) (devs : List String)
    (h : ∀ f ∈ devs, env.joystick_open f = none) : attempted env devs = devs := by
  induction devs with
  | nil => rfl
  | cons f rest ih =>
    have hf : env.joystick_open f = none := h f (List.mem_cons_self _ _)
    simp only [attempted, hf]
    rw [ih (fun g hg => h g (List.mem_cons_of_mem _ hg))]

theorem show_device_list_dialog_effects (s : State) :
    ∃ E, (show_device_list_dialog s).effects = s.effects ++ E ∧
      property_calls E = [] ∧ list_calls E = 1 := by
  cases hl : s.list_dialog with
  | none =>
    exact ⟨[Effect.call_show_device_list_dialog, Effect.new_JoystickListWidget s.next,
      Effect.connect_hide s.next, Effect.show_all s.next],
      by simp [show_device_list_dialog, hl], rfl, rfl⟩
  | some p =>
    exact ⟨[Effect.call_show_device_list_dialog, Effect.show p],
      by simp [show_device_list_dialog, hl], rfl, rfl⟩

theorem show_device_files_effects (env : Env) (devs : List String) (s : State) :
    ∃ E, (show_device_files env devs s).2.effects = s.effects ++ E ∧
      property_calls E = attempted env devs ∧ list_calls E = 0 := by
  induction devs generalizing s with
  | nil => exact ⟨[], by simp [show_device_files], rfl, rfl⟩
  | cons f rest ih =>
    cases hf : env.joystick_open f with
    | some what =>
      exact ⟨[Effect.call_show_device_property_dialog f],
        by simp [show_device_files, show_device_property_dialog, hf],
        by simp [attempted, hf, property_calls], rfl⟩
    | none =>
      obtain ⟨E, hE, hp, hl⟩ := ih
        (show_device_property_dialog env f s).2
      refine ⟨[Effect.call_show_device_property_dialog f, Effect.new_Joystick s.next f,
        Effect.new_JoystickTestWidget (s.next + 1) s.next s.m_simple_ui,
        Effect.connect_hide (s.next + 1), Effect.show_all (s.next + 1)] ++ E, ?_, ?_, ?_⟩
      · have hstep : show_device_files env (f :: rest) s =
            show_device_files env rest (show_device_property_dialog env f s).2 := by
          simp [show_device_files, show_device_property_dialog, hf]
        rw [hstep, hE]
        simp [show_device_property_dialog, hf]
      · rw [property_calls_append, hp]
        simp [attempted, hf, property_calls]
      · rw [list_calls_append, hl]
        rfl

theorem main_try_of_cfg_ok (env : Env) (devs : List String) (s : State)
    (hcfg : cfg_directory_ok env = true) :
    main_try env devs s =
      match (if devs.isEmpty then
          ((none : Option String), show_device_list_dialog
            { s with cfg_directory := env.build_filename env.user_config_dir "jstest-gtk"
                     effects := s.effects ++ try_prologue env })
        else
          show_device_files env devs
            { s with cfg_directory := env.build_filename env.user_config_dir "jstest-gtk"
                     effects := s.effects ++ try_prologue env }) with
      | (some what, s) => (some what, s)
      | (none, s) => (none, { s with effects := s.effects ++ [Effect.gtk_main_run] }) := by
  unfold cfg_directory_ok at hcfg
  cases ha : env.access_ok (env.build_filename env.user_config_dir "jstest-gtk")
  · have hm : env.mkdir_ok (env.build_filename env.user_config_dir "jstest-gtk") = true := by
      simpa [ha] using hcfg
    simp [main_try, try_prologue, ha, hm]
  · simp [main_try, try_prologue, ha]

theorem main_loop_all_pass (argv0 : String) (args : List String) (s : State)
    (hargs : ∀ x ∈ args, passes x) :
    main_loop argv0 args s [] =
      (none, { s with m_simple_ui := s.m_simple_ui || decide ("--simple" ∈ args) },
        device_args args) := by
  have h := main_loop_passes argv0 args [] hargs s []
  rw [List.append_nil] at h
  rw [h, main_loop, List.nil_append]

theorem main_calls (env : Env) (argv0 : String) (args : List String) (s : State)
    (hargs : ∀ x ∈ args, passes x) (hcfg : cfg_directory_ok env = true) :
    ∃ E, (main env (argv0 :: args) s).2.effects = s.effects ++ E ∧
      (device_args args = [] → list_calls E = 1 ∧ property_calls E = []) ∧
      (device_args args ≠ [] →
        property_calls E = attempted env (device_args args) ∧ list_calls E = 0) := by
  have hloop := main_loop_all_pass argv0 args s hargs
  by_cases hd : device_args args = []
  · obtain ⟨E, hE, hp, hl⟩ := show_device_list_dialog_effects
      { s with
        m_simple_ui := s.m_simple_ui || decide ("--simple" ∈ args)
        cfg_directory := env.build_filename env.user_config_dir "jstest-gtk"
        effects := s.effects ++ try_prologue env }
    refine ⟨try_prologue env ++ E ++ [Effect.gtk_main_run], ?_, ?_, ?_⟩
    · simp [main, hloop, main_try_of_cfg_ok env _ _ hcfg, hd, hE]
    · intro _
      constructor
      · rw [list_calls_append, list_calls_append, hl]
        unfold try_prologue
        split <;> rfl
      · rw [property_calls_append, property_calls_append, hp]
        unfold try_prologue
        split <;> rfl
    · intro h
      exact absurd hd h
  · obtain ⟨E, hE, hp, hl⟩ := show_device_files_effects env (device_args args)
      { s with
        m_simple_ui := s.m_simple_ui || decide ("--simple" ∈ args)
        cfg_directory := env.build_filename env.user_config_dir "jstest-gtk"
        effects := s.effects ++ try_prologue env }
    have hpro : property_calls (try_prologue env) = [] ∧ list_calls (try_prologue env) = 0 := by
      unfold try_prologue
      split <;> exact ⟨rfl, rfl⟩
    have hmain : (main env (argv0 :: args) s).2.effects = s.effects ++ (try_prologue env ++ E) ∨
        (main env (argv0 :: args) s).2.effects =
          s.effects ++ (try_prologue env ++ E ++ [Effect.gtk_main_run]) := by
      have hne : (device_args args).isEmpty = false := by
        cases hq : device_args args with
        | nil => exact absurd hq hd
        | cons a l => rfl
      simp only [main, List.headD_cons, List.drop_one, List.tail_cons, hloop,
        main_try_of_cfg_ok env _ _ hcfg, hne]
      generalize hr : show_device_files env (device_args args) _ = r at hE
      obtain ⟨exc, t⟩ := r
      cases exc with
      | none =>
        right
        simp only at hE
        simp [hE, List.append_assoc]
      | some what => left; simpa [List.append_assoc] using hE
    rcases hmain with hm | hm
    · refine ⟨_, hm, fun h => absurd h hd, fun _ => ?_⟩
      rw [property_calls_append, list_calls_append, hp, hl, hpro.1, hpro.2]
      exact ⟨rfl, rfl⟩
    · refine ⟨_, hm, fun h => absurd h hd, fun _ => ?_⟩
      rw [property_calls_append, property_calls_append, list_calls_append, list_calls_append,
        hp, hl, hpro.1, hpro.2]
      exact ⟨by simp [property_calls], rfl⟩

/-- C3 as stated fails: with the arguments `/dev/input/js9 /dev/input/js0`,
both device files, and an accessible config directory, the Joystick for
`/dev/input/js9` cannot be opened, the exception leaves the loop over
`device_files`, and `show_device_property_dialog` is called for the first
file only; `main` reports the error and returns `EXIT_FAILURE`. -/
theorem main_stops_at_unopenable_device :
    (∀ x ∈ ["/dev/input/js9", "/dev/input/js0"], x = "--simple" ∨ firstChar x ≠ '-') ∧
    cfg_directory_ok envMissing = true ∧
    device_args ["/dev/input/js9", "/dev/input/js0"] = ["/dev/input/js9", "/dev/input/js0"] ∧
    property_calls (emitted (Main "/usr/share/")
      (main envMissing ["jstest-gtk", "/dev/input/js9", "/dev/input/js0"] (Main "/usr/share/")).2)
      = ["/dev/input/js9"] ∧
    (main envMissing ["jstest-gtk", "/dev/input/js9", "/dev/input/js0"] (Main "/usr/share/")).1
      = EXIT_FAILURE ∧
    (main envMissing ["jstest-gtk", "/dev/input/js9", "/dev/input/js0"] (Main "/usr/share/")).2.out
      = "Error: /dev/input/js9: No such file or directory\n" := by
  refine ⟨by decide, by decide, by decide, by decide, by decide, by decide⟩

/-- C3, amended: when every argument is `--simple` or does not start with
`-` and the config directory check passes, `Main::main` calls
`show_device_list_dialog` exactly once and `show_device_property_dialog`
never if there is no device argument; otherwise it never calls
`show_device_list_dialog` and calls `show_device_property_dialog` for the
device arguments in command-line order, duplicates kept, once each up to and
including the first whose Joystick cannot be opened, so once for every device
argument when each one opens. -/
theorem main_shows_requested_dialogs (env : Env) (argv0 : String) (args : List String)
    (s : State)
    (hargs : ∀ x ∈ args, x = "--simple" ∨ firstChar x ≠ '-')
    (hcfg : cfg_directory_ok env = true) :
    (device_args args = [] →
      list_calls (emitted s (main env (argv0 :: args) s).2) = 1 ∧
      property_calls (emitted s (main env (argv0 :: args) s).2) = []) ∧
    (device_args args ≠ [] →
      property_calls (emitted s (main env (argv0 :: args) s).2)
        = attempted env (device_args args) ∧
      list_calls (emitted s (main env (argv0 :: args) s).2) = 0) ∧
    (device_args args ≠ [] → (∀ f ∈ device_args args, env.joystick_open f = none) →
      property_calls (emitted s (main env (argv0 :: args) s).2) = device_args args) := by
  obtain ⟨E, hE, h0, h1⟩ := main_calls env argv0 args s hargs hcfg
  have hem : emitted s (main env (argv0 :: args) s).2 = E := by
    simp [emitted, hE]
  rw [hem]
  refine ⟨h0, h1, fun hne hopen => ?_⟩
  rw [(h1 hne).1, attempted_of_all_open env _ hopen]

/-- Instance of C3 (amended): `--simple a "" a` with every device opening
shows the three devices in order, the empty path and the duplicate
included. -/
theorem main_shows_requested_dialogs_witness :
    property_calls (emitted (Main "/usr/share/")
      (main envOk ["jstest-gtk", "--simple", "a", "", "a"] (Main "/usr/share/")).2)
      = device_args ["--simple", "a", "", "a"] ∧
    device_args ["--simple", "a", "", "a"] = ["a", "", "a"] :=
  ⟨(main_shows_requested_dialogs envOk "jstest-gtk" ["--simple", "a", "", "a"]
      (Main "/usr/share/") (by decide) (by decide)).2.2 (by decide) (by decide),
   by decide⟩

/-! ## Hiding a dialog -/

theorem erase_remove_eq_filter (l : List Ptr) (value : Ptr) :
    erase_to_end (std_remove l value).1 (std_remove l value).2
      = l.filter (fun x => x != value) := by
  simp [erase_to_end, std_remove]

/-- C4: after `on_dialog_hide(d)` the `dialogs` list is the old list with
every occurrence of `d` removed and the other entries in their order, `d` is
deleted, and `Gtk::Main::quit` is called exactly when the resulting list is
empty; `delete` and that `quit` are all the call does. -/
theorem on_dialog_hide_removes_and_quits (d : Ptr) (s : State) :
    (on_dialog_hide d s).dialogs = s.dialogs.filter (fun x => x != d) ∧
    d ∉ (on_dialog_hide d s).dialogs ∧
    (on_dialog_hide d s).dialogs.Sublist s.dialogs ∧
    Effect.delete d ∈ emitted s (on_dialog_hide d s) ∧
    (Effect.quit ∈ emitted s (on_dialog_hide d s) ↔ (on_dialog_hide d s).dialogs = []) ∧
    emitted s (on_dialog_hide d s) =
      Effect.delete d :: (if (on_dialog_hide d s).dialogs = [] then [Effect.quit] else []) := by
  have hd : (on_dialog_hide d s).dialogs = s.dialogs.filter (fun x => x != d) := by
    unfold on_dialog_hide
    simp only [erase_remove_eq_filter]
    split <;> rfl
  have he : emitted s (on_dialog_hide d s) =
      Effect.delete d :: (if (on_dialog_hide d s).dialogs = [] then [Effect.quit] else []) := by
    rw [hd]
    unfold on_dialog_hide emitted
    simp only [erase_remove_eq_filter]
    by_cases hempty : s.dialogs.filter (fun x => x != d) = []
    · simp [hempty]
    · have hb : (List.filter (fun x => x != d) s.dialogs).isEmpty = false := by
        cases hq : List.filter (fun x => x != d) s.dialogs with
        | nil => exact absurd hq hempty
        | cons a l => rfl
      simp [hempty, hb]
  refine ⟨hd, ?_, ?_, ?_, ?_, he⟩
  · rw [hd]
    simp [List.mem_filter]
  · rw [hd]
    exact List.filter_sublist _
  · rw [he]
    exact List.mem_cons_self _ _
  · rw [he]
    by_cases hempty : (on_dialog_hide d s).dialogs = []
    · simp [hempty]
    · simp [hempty]

/-! ## Degenerate calibration range -/

/-- C5: for a calibration record with `min == max`, `normalize` returns 0 for
every raw value, whatever `center`, `deadzone` and `inverted` are. -/
theorem normalize_min_eq_max (r : CalibrationRecord) (raw_value : Int)
    (h : r.min = r.max) : normalize r raw_value = 0 := by
  unfold normalize
  rw [if_pos h]

/-- Instance of C5: range 5 to 5 with centre 0 outside it, inverted. -/
theorem normalize_min_eq_max_witness :
    normalize { min := 5, center := 0, max := 5, deadzone := 3, inverted := true } 100 = 0 :=
  normalize_min_eq_max { min := 5, center := 0, max := 5, deadzone := 3, inverted := true } 100
    (by decide)

/-! ## What the show operations change -/

/-- C6 as stated fails for `show_device_property_dialog`: when the Joystick
for the file cannot be opened the call is left by the exception before either
`push_back`, and neither a dialog nor a Joystick is appended. -/
theorem show_device_property_dialog_unopenable :
    envMissing.joystick_open "/dev/input/js9" ≠ none ∧
    (show_device_property_dialog envMissing "/dev/input/js9" (Main "/usr/share/")).2.dialogs
      = (Main "/usr/share/").dialogs ∧
    (show_device_property_dialog envMissing "/dev/input/js9" (Main "/usr/share/")).2.joysticks
      = (Main "/usr/share/").joysticks ∧
    (show_device_property_dialog envMissing "/dev/input/js9" (Main "/usr/share/")).1
      = some "/dev/input/js9: No such file or directory" := by
  refine ⟨by decide, by decide, by decide, by decide⟩

/-- C6, amended: every show operation leaves the existing `dialogs` entries
in place and adds at most one at the end. `show_calibration_dialog` and
`show_mapping_dialog` append exactly the dialog they create and leave
`joysticks` alone; `show_device_property_dialog` appends exactly the dialog
and the Joystick it creates when the Joystick opens, and changes neither list
when it does not; `show_device_list_dialog` appends the dialog it creates and
records it in `list_dialog` when `list_dialog` is null, appends nothing when
it is set, never changes `joysticks`, and called twice leaves `dialogs` as
one call does. -/
theorem show_operations_frame (env : Env) (filename : String) (joystick : Ptr) (s : State) :
    (env.joystick_open filename = none →
      (show_device_property_dialog env filename s).2.dialogs = s.dialogs ++ [s.next + 1] ∧
      (show_device_property_dialog env filename s).2.joysticks = s.joysticks ++ [s.next] ∧
      Effect.new_Joystick s.next filename
        ∈ emitted s (show_device_property_dialog env filename s).2 ∧
      Effect.new_JoystickTestWidget (s.next + 1) s.next s.m_simple_ui
        ∈ emitted s (show_device_property_dialog env filename s).2) ∧
    (env.joystick_open filename ≠ none →
      (show_device_property_dialog env filename s).2.dialogs = s.dialogs ∧
      (show_device_property_dialog env filename s).2.joysticks = s.joysticks) ∧
    ((show_calibration_dialog joystick s).dialogs = s.dialogs ++ [s.next] ∧
      (show_calibration_dialog joystick s).joysticks = s.joysticks ∧
      Effect.new_JoystickCalibrationWidget s.next joystick
        ∈ emitted s (show_calibration_dialog joystick s)) ∧
    ((show_mapping_dialog joystick s).dialogs = s.dialogs ++ [s.next] ∧
      (show_mapping_dialog joystick s).joysticks = s.joysticks ∧
      Effect.new_JoystickMapWidget s.next joystick
        ∈ emitted s (show_mapping_dialog joystick s)) ∧
    (s.list_dialog = none →
      (show_device_list_dialog s).dialogs = s.dialogs ++ [s.next] ∧
      (show_device_list_dialog s).list_dialog = some s.next ∧
      Effect.new_JoystickListWidget s.next ∈ emitted s (show_device_list_dialog s)) ∧
    (s.list_dialog ≠ none →
      (show_device_list_dialog s).dialogs = s.dialogs ∧
      (show_device_list_dialog s).list_dialog = s.list_dialog) ∧
    (show_device_list_dialog s).joysticks = s.joysticks ∧
    (show_device_list_dialog (show_device_list_dialog s)).dialogs
      = (show_device_list_dialog s).dialogs ∧
    (∀ r ∈ [(show_device_property_dialog env filename s).2, show_calibration_dialog joystick s,
        show_mapping_dialog joystick s, show_device_list_dialog s],
      ∃ added : List Ptr, r.dialogs = s.dialogs ++ added ∧ added.length ≤ 1) := by
  have hprop_ok : env.joystick_open filename = none →
      (show_device_property_dialog env filename s).2.dialogs = s.dialogs ++ [s.next + 1] ∧
      (show_device_property_dialog env filename s).2.joysticks = s.joysticks ++ [s.next] ∧
      Effect.new_Joystick s.next filename
        ∈ emitted s (show_device_property_dialog env filename s).2 ∧
      Effect.new_JoystickTestWidget (s.next + 1) s.next s.m_simple_ui
        ∈ emitted s (show_device_property_dialog env filename s).2 := by
    intro h
    simp [show_device_property_dialog, h, emitted]
  have hprop_fail : env.joystick_open filename ≠ none →
      (show_device_property_dialog env filename s).2.dialogs = s.dialogs ∧
      (show_device_property_dialog env filename s).2.joysticks = s.joysticks := by
    intro h
    cases hj : env.joystick_open filename with
    | none => exact absurd hj h
    | some what => simp [show_device_property_dialog, hj]
  have hlist_null : s.list_dialog = none →
      (show_device_list_dialog s).dialogs = s.dialogs ++ [s.next] ∧
      (show_device_list_dialog s).list_dialog = some s.next ∧
      Effect.new_JoystickListWidget s.next ∈ emitted s (show_device_list_dialog s) := by
    intro h
    simp [show_device_list_dialog, h, emitted]
  have hlist_set : s.list_dialog ≠ none →
      (show_device_list_dialog s).dialogs = s.dialogs ∧
      (show_device_list_dialog s).list_dialog = s.list_dialog := by
    intro h
    cases hl : s.list_dialog with
    | none => exact absurd hl h
    | some p => simp [show_device_list_dialog, hl]
  refine ⟨hprop_ok, hprop_fail, ?_, ?_, hlist_null, hlist_set, ?_, ?_, ?_⟩
  · simp [show_calibration_dialog, emitted]
  · simp [show_mapping_dialog, emitted]
  · cases hl : s.list_dialog <;> simp [show_device_list_dialog, hl]
  · cases hl : s.list_dialog <;> simp [show_device_list_dialog, hl]
  · intro r hr
    simp only [List.mem_cons, List.mem_singleton, List.not_mem_nil, or_false] at hr
    rcases hr with rfl | rfl | rfl | rfl
    · cases hj : env.joystick_open filename with
      | none => exact ⟨[s.next + 1], (hprop_ok hj).1, by simp⟩
      | some what => exact ⟨[], by simp [(hprop_fail (by simp [hj])).1], by simp⟩
    · exact ⟨[s.next], by simp [show_calibration_dialog], by simp⟩
    · exact ⟨[s.next], by simp [show_mapping_dialog], by simp⟩
    · cases hl : s.list_dialog with
      | none => exact ⟨[s.next], (hlist_null hl).1, by simp⟩
      | some p => exact ⟨[], by simp [(hlist_set (by simp [hl])).1], by simp⟩

/-- Instance of C6 (amended): opening `/dev/input/js0` on a fresh `Main`
appends the dialog at address 2 and the Joystick at address 1. -/
theorem show_operations_frame_witness :
    envOk.joystick_open "/dev/input/js0" = none ∧
    (show_device_property_dialog envOk "/dev/input/js0" (Main "/usr/share/")).2.dialogs
      = (Main "/usr/share/").dialogs ++ [(Main "/usr/share/").next + 1] ∧
    (show_device_property_dialog envOk "/dev/input/js0" (Main "/usr/share/")).2.joysticks
      = (Main "/usr/share/").joysticks ++ [(Main "/usr/share/").next] :=
  have h := (show_operations_frame envOk "/dev/input/js0" 0 (Main "/usr/share/")).1 rfl
  ⟨rfl, h.1, h.2.1⟩

end JstestGtk
